import Mathlib

/-!
Verification of the Financial Eligibility & Listing-Match Engine of the
FlatFinder repository (snnjana/sc2006-proj).

The repository's domain logic lives in three places:

* `backend/controllers/listing_calculator.py` — present only as the
  compiled `.pyc` artifact, whose bytes ≥ 0x80 were replaced by U+FFFD.
  The CPython 3.11 instruction stream is nonetheless recoverable: the
  low-byte opcodes (LOAD_FAST, STORE_FAST, COMPARE_OP, LOAD_CONST),
  their arguments, the variable-name and string tables, and the intact
  constant 7000 determine `calculate_grant` and `get_marker_color`
  completely, and those recovered functions are embedded here.
* `view/auth/SignUpScreen.js` — `getInterestRate`, translated directly.
* the preferences screen (`EditPreferencesScreen`) — `checkGrantEligibility`,
  `handleSavePreferences`, `isValidDecimal`, `formatAmount`, translated
  directly from the JavaScript source.

Numbers are modelled as rationals (`ℚ`); JavaScript's `parseFloat` and
Python's `float()` are modelled as `Option ℚ` producers, `none` standing
for `NaN` / a raised `ValueError`.  Comparisons against `NaN` are `false`,
as in JavaScript.
-/

/-- The singles-grant local of `calculate_grant` in
`backend/controllers/listing_calculator.py` (recovered from the
repository's `.pyc` artifact; the corruption replaced only bytes ≥ 0x80,
leaving opcodes, variable indices and the key constants legible):
`singles_grant` starts at 0 and is assigned only inside the
`salary <= 7000` gate — 40000 for 2/3/4-Room, 25000 for 5-Room. -/
def singles_grant (salary : ℚ) (flat_type : String) : ℚ :=
  if salary ≤ 7000 then
    if flat_type = "2-Room" ∨ flat_type = "3-Room" ∨ flat_type = "4-Room" then 40000
    else if flat_type = "5-Room" then 25000
    else 0
  else 0

/-- The enhanced-grant local of `calculate_grant` (recovered from the
`.pyc` bytecode): `enhanced_grant` starts at 0 and becomes 60000 only
inside the `salary <= 7000` gate when additionally `salary <= 4500`; it
does not depend on the flat type. -/
def enhanced_grant (salary : ℚ) : ℚ :=
  if salary ≤ 7000 then
    if salary ≤ 4500 then 60000
    else 0
  else 0

/-- `calculate_grant` of `backend/controllers/listing_calculator.py`
(recovered from the `.pyc` bytecode): returns the scalar
`total_grant = singles_grant + enhanced_grant`, both locals being 0
whenever `salary > 7000`. -/
def calculate_grant (salary : ℚ) (flat_type : String) : ℚ :=
  singles_grant salary flat_type + enhanced_grant salary

/-- `get_marker_color` of `backend/controllers/listing_calculator.py`
(recovered from the `.pyc` bytecode; the surviving instruction stream
shows `float()` re-assigning only `preferred_price`, `listing_price`
and `cpf_oa_balance`, and `adjusted_price` built from `listing_price`).
The three parsed arguments are `Option ℚ` (`none` = `ValueError`, which
the `try` turns into `"gray"`).  `salary` is NEVER parsed: a
non-numeric salary (modelled `none`) reaches the `salary <= 7000`
comparison inside `calculate_grant` and raises an uncaught `TypeError`,
modelled as the `none` result.  Otherwise
`adjusted_price = listing_price − total_grant − cpf_oa_balance` is
classified against `preferred_price`: green when
`adjusted_price <= preferred_price`, yellow when
`preferred_price < adjusted_price <= preferred_price * 1.05`, red
otherwise. -/
def get_marker_color (preferred_price listing_price salary : Option ℚ)
    (flat_type : String) (cpf_oa_balance : Option ℚ) : Option String :=
  match preferred_price, listing_price, cpf_oa_balance with
  | some p, some l, some c =>
    match salary with
    | some s =>
      let total_grant := calculate_grant s flat_type
      let adjusted_price := l - total_grant - c
      if adjusted_price ≤ p then some "green"
      else if p < adjusted_price ∧ adjusted_price ≤ p * (105 / 100) then some "yellow"
      else some "red"
    | none => none
  | _, _, _ => some "gray"

/-- `getInterestRate` from `view/auth/SignUpScreen.js` (lines 418-429),
translated directly. -/
def getInterestRate (loanType : String) (loanTenure : ℚ) : String :=
  if loanType = "HDB Housing Loan" then
    "2.6% per annum"
  else if loanType = "DBS 5 Year Fixed Package" then
    if loanTenure ≤ 5 then
      "2.5% per annum for the first 5 years"
    else
      "2.5% per annum for the first 5 years, then 4.48% per annum"
  else
    "Unknown Loan Type"

/-- Numeric value of a list of decimal digits, most significant first. -/
def digitsVal (cs : List Char) : ℕ :=
  cs.foldl (fun acc c => 10 * acc + (c.toNat - '0'.toNat)) 0

/-- The syntactic pieces of a decimal literal recognised by
JavaScript's `parseFloat`: sign, integer part, fractional part (with its
digit count), and exponent. -/
structure FloatParts where
  neg : Bool
  intVal : ℕ
  fracVal : ℕ
  fracLen : ℕ
  expNeg : Bool
  expVal : ℕ
  deriving Repr, DecidableEq

/-- Longest-prefix scan of a decimal literal: optional leading spaces,
optional sign, an integer part and/or a fractional part (at least one
digit overall), optional exponent.  Returns `none` when no digit can be
consumed (JavaScript `NaN`). -/
def parseFloatParts (s : String) : Option FloatParts :=
  let cs := s.data.dropWhile (· = ' ')
  let (neg, cs) : Bool × List Char :=
    match cs with
    | '-' :: r => (true, r)
    | '+' :: r => (false, r)
    | _ => (false, cs)
  let intPart := cs.takeWhile Char.isDigit
  let cs := cs.dropWhile Char.isDigit
  let (fracPart, cs) : List Char × List Char :=
    match cs with
    | '.' :: r => (r.takeWhile Char.isDigit, r.dropWhile Char.isDigit)
    | _ => ([], cs)
  if intPart = [] ∧ fracPart = [] then none
  else
    let (expNeg, expVal) : Bool × ℕ :=
      match cs with
      | 'e' :: r | 'E' :: r =>
        let (esgn, r) : Bool × List Char :=
          match r with
          | '-' :: r2 => (true, r2)
          | '+' :: r2 => (false, r2)
          | _ => (false, r)
        let eds := r.takeWhile Char.isDigit
        if eds = [] then (false, 0) else (esgn, digitsVal eds)
      | _ => (false, 0)
    some { neg := neg, intVal := digitsVal intPart, fracVal := digitsVal fracPart,
           fracLen := fracPart.length, expNeg := expNeg, expVal := expVal }

/-- The rational value denoted by a parsed decimal literal. -/
def partsToRat (p : FloatParts) : ℚ :=
  (if p.neg then -1 else 1) *
    ((p.intVal : ℚ) + (p.fracVal : ℚ) / (10 : ℚ) ^ p.fracLen) *
    (if p.expNeg then 1 / (10 : ℚ) ^ p.expVal else (10 : ℚ) ^ p.expVal)

/-- Model of JavaScript `parseFloat` on the decimal strings this app
feeds it.  `Infinity` and hex forms are not modelled; the screens only
pass decimal text from numeric inputs. -/
def parseFloat (s : String) : Option ℚ :=
  (parseFloatParts s).map partsToRat

/-- `isValidDecimal` from the preferences screen: the regular-expression
test for digits optionally followed by a dot and one or two digits. -/
def isValidDecimal (s : String) : Bool :=
  let ds := s.data.takeWhile Char.isDigit
  let rest := s.data.dropWhile Char.isDigit
  decide (ds ≠ []) &&
    match rest with
    | [] => true
    | '.' :: fs => fs.all Char.isDigit && decide (1 ≤ fs.length) && decide (fs.length ≤ 2)
    | _ => false

/-- Groups a reversed digit list into blocks of three separated by
commas; fuel-recursive helper for `formatAmount`. -/
def commaGroupRevAux : ℕ → List Char → List Char
  | 0, cs => cs
  | fuel + 1, cs =>
    if cs.length ≤ 3 then cs
    else cs.take 3 ++ ',' :: commaGroupRevAux fuel (cs.drop 3)

/-- `formatAmount` from the preferences screen: renders a whole-dollar
amount with commas every three digits (the regex-based thousands
separation in the source). -/
def formatAmount (n : ℕ) : String :=
  let rev := (toString n).data.reverse
  ⟨(commaGroupRevAux rev.length rev).reverse⟩

/-- JavaScript comparison `x <= y` where `x` may be `NaN` (`none`):
any comparison with `NaN` is false. -/
def nanLe (x : Option ℚ) (y : ℚ) : Bool :=
  match x with
  | some v => v ≤ y
  | none => false

/-- JavaScript comparison `x > y` where `x` may be `NaN` (`none`). -/
def nanGt (x : Option ℚ) (y : ℚ) : Bool :=
  match x with
  | some v => y < v
  | none => false

/-- JavaScript comparison `x < y` where `x` may be `NaN` (`none`). -/
def nanLt (x : Option ℚ) (y : ℚ) : Bool :=
  match x with
  | some v => v < y
  | none => false

/-- `checkGrantEligibility` from the preferences screen
(`EditPreferencesScreen`), translated directly: reads the `salary` and
`hdbType` component state (both strings) and returns the
grant-eligibility message. -/
def checkGrantEligibility (salary hdbType : String) : String :=
  if nanLe (parseFloat salary) 7000 then
    let singlesGrant : ℕ :=
      if hdbType = "5-Room" ∨ hdbType = "Executive" then 25000 else 40000
    if nanLe (parseFloat salary) 4500 then
      let enhancedGrant : ℕ := 60000
      let totalGrant := singlesGrant + enhancedGrant
      "Eligible for: HDB Singles Grant and Enhanced CPF Housing Grant. \nTotal Amount: $" ++
        formatAmount totalGrant
    else
      "Eligible for: HDB Singles Grant. \nAmount: $" ++ formatAmount singlesGrant
  else
    "Not eligible for any grants."

/-- Outcome of `handleSavePreferences`: either an error message is set
and the function returns early, or a POST with the parsed preferences is
issued to the backend.  `post` is the only constructor that represents a
backend request. -/
inductive SaveOutcome where
  | error (msg : String)
  | post (salary cpf_balance : Option ℚ) (hdb_type : String)
      (preferred_price : Option ℚ) (housing_loan_type : String)
  deriving Repr, DecidableEq

/-- `handleSavePreferences` from the preferences screen
(`EditPreferencesScreen`), translated directly.  The five arguments are
the component's string state; JavaScript falsiness of a string state
value is emptiness.  The guards appear in source order; the first that
fires sets its error message and returns before the POST. -/
def handleSavePreferences (salary cpfBalance hdbType preferredPrice
    housingLoanType : String) : SaveOutcome :=
  if salary = "" ∨ cpfBalance = "" ∨ hdbType = "" ∨ preferredPrice = "" ∨
      housingLoanType = "" then
    .error "Please fill out all fields."
  else if housingLoanType = "HDB Housing Loan" ∧ nanGt (parseFloat salary) 7000 then
    .error "HDB Loan is only allowed if salary is less than or equal to 7000."
  else if ¬ isValidDecimal preferredPrice ∨ nanLt (parseFloat preferredPrice) 200000 then
    .error "Preferred price must be $200,000 or more."
  else if ¬ isValidDecimal salary ∨ nanLe (parseFloat salary) 0 then
    .error "Salary must be a positive number with up to 2 decimal places."
  else if ¬ isValidDecimal cpfBalance ∨ nanLe (parseFloat cpfBalance) 0 then
    .error "CPF Balance must be a positive number with up to 2 decimal places."
  else if ¬ isValidDecimal preferredPrice ∨ nanLe (parseFloat preferredPrice) 0 then
    .error "Preferred Price must be a positive number with up to 2 decimal places."
  else
    .post (parseFloat salary) (parseFloat cpfBalance) hdbType
      (parseFloat preferredPrice) housingLoanType

/-- Concrete evaluation of `parseFloat` at `"8000"`. -/
lemma parseFloat_8000 : parseFloat "8000" = some 8000 := by
  have h : parseFloatParts "8000" =
      some { neg := false, intVal := 8000, fracVal := 0, fracLen := 0,
             expNeg := false, expVal := 0 } := by decide
  rw [parseFloat, h]
  simp only [Option.map_some']
  norm_num [partsToRat]

/-- Concrete evaluation of `parseFloat` at `"4000"`. -/
lemma parseFloat_4000 : parseFloat "4000" = some 4000 := by
  have h : parseFloatParts "4000" =
      some { neg := false, intVal := 4000, fracVal := 0, fracLen := 0,
             expNeg := false, expVal := 0 } := by decide
  rw [parseFloat, h]
  simp only [Option.map_some']
  norm_num [partsToRat]

/-- Concrete evaluation of `parseFloat` at `"5000"`. -/
lemma parseFloat_5000 : parseFloat "5000" = some 5000 := by
  have h : parseFloatParts "5000" =
      some { neg := false, intVal := 5000, fracVal := 0, fracLen := 0,
             expNeg := false, expVal := 0 } := by decide
  rw [parseFloat, h]
  simp only [Option.map_some']
  norm_num [partsToRat]


/-- C1 counterexample: at the spec's own scenario (preferred 500000,
listing 460000, salary 4000, "4-Room", CPF 20000) the recovered code
returns green, while the claim's bands (ceiling 380000, tolerance
399000 < 460000) demand red. -/
theorem get_marker_color_claim_counterexample :
    get_marker_color (some 500000) (some 460000) (some 4000) "4-Room"
      (some 20000) = some "green" ∧
    ((500000 : ℚ) - calculate_grant 4000 "4-Room" - 20000) * (105 / 100) < 460000 ∧
    (some "green" : Option String) ≠ some "red" := by
  refine ⟨?_, ?_, by decide⟩
  · simp +decide only [get_marker_color, calculate_grant, singles_grant,
      enhanced_grant]
    norm_num
  · simp +decide only [calculate_grant, singles_grant, enhanced_grant]
    norm_num

/-- C1 (amended): for parsed inputs the classifier computes
`adjusted_price = listingPrice − totalGrant − cpfBalance` and compares
it to the preferred price: green when `adjusted_price ≤ preferredPrice`,
yellow when `preferredPrice < adjusted_price ≤ preferredPrice × 1.05`,
red otherwise, first match winning; for a positive preferred price `p`,
a listing making `adjusted_price = p` is green, `= p × 1.05` is yellow,
and `= p × 1.05 + 0.01` is red. -/
theorem get_marker_color_bands (p l s c A : ℚ) (ft : String)
    (hA : A = l - calculate_grant s ft - c) :
    (get_marker_color (some p) (some l) (some s) ft (some c) = some "green" ↔
      A ≤ p) ∧
    (get_marker_color (some p) (some l) (some s) ft (some c) = some "yellow" ↔
      p < A ∧ A ≤ p * (105 / 100)) ∧
    (get_marker_color (some p) (some l) (some s) ft (some c) = some "red" ↔
      p < A ∧ p * (105 / 100) < A) ∧
    (0 < p →
      get_marker_color (some p) (some (p + calculate_grant s ft + c)) (some s) ft
        (some c) = some "green" ∧
      get_marker_color (some p) (some (p * (105 / 100) + calculate_grant s ft + c))
        (some s) ft (some c) = some "yellow" ∧
      get_marker_color (some p)
        (some (p * (105 / 100) + 1 / 100 + calculate_grant s ft + c)) (some s) ft
        (some c) = some "red") := by
  have key : ∀ lp : ℚ, get_marker_color (some p) (some lp) (some s) ft (some c) =
      if lp - calculate_grant s ft - c ≤ p then some "green"
      else if p < lp - calculate_grant s ft - c ∧
          lp - calculate_grant s ft - c ≤ p * (105 / 100) then some "yellow"
      else some "red" := fun lp => rfl
  refine ⟨?_, ?_, ?_, fun h0 => ⟨?_, ?_, ?_⟩⟩
  · rw [key, ← hA]
    split_ifs with h1 h2 <;> simp [h1]
  · rw [key, ← hA]
    split_ifs with h1 h2 <;> simp only [Option.some.injEq, String.reduceEq] <;>
      constructor <;> intro h <;> first
        | exact h2
        | trivial
        | linarith [h.1, not_lt.mp (fun hh => h1 (le_of_lt hh))]
        | exact absurd h1 (by push_neg; linarith [h.1])
  · rw [key, ← hA]
    split_ifs with h1 h2 <;> simp only [Option.some.injEq, String.reduceEq] <;>
      constructor <;> intro h <;> first
        | exact ⟨not_le.mp h1, not_le.mp (fun hh => h2 ⟨not_le.mp h1, hh⟩)⟩
        | linarith [h.1]
        | linarith [h.2, h2.2]
        | trivial
  · rw [key, if_pos (by rw [show p + calculate_grant s ft + c -
      calculate_grant s ft - c = p from by ring])]
  · rw [key]
    rw [show p * (105 / 100) + calculate_grant s ft + c - calculate_grant s ft - c =
      p * (105 / 100) from by ring]
    rw [if_neg (by intro h; nlinarith), if_pos ⟨by nlinarith, le_rfl⟩]
  · rw [key]
    rw [show p * (105 / 100) + 1 / 100 + calculate_grant s ft + c -
      calculate_grant s ft - c = p * (105 / 100) + 1 / 100 from by ring]
    rw [if_neg (by intro h; nlinarith), if_neg (by rintro ⟨-, h⟩; linarith)]

/-- Witness for the amended C1 at preferred 500000, salary 5000, flat
"1-Room", CPF 0 (total grant 0): the listing making the adjusted price
`500000 × 1.05` classifies as yellow. -/
theorem get_marker_color_bands_witness :
    get_marker_color (some 500000)
      (some (500000 * (105 / 100) + calculate_grant 5000 "1-Room" + 0)) (some 5000)
      "1-Room" (some 0) = some "yellow" :=
  ((get_marker_color_bands 500000 1 5000 0
    (1 - calculate_grant 5000 "1-Room" - 0) "1-Room" rfl).2.2.2 (by norm_num)).2.1

/-- C2 counterexample: with the other inputs valid and an unparsable
salary the recovered code raises an uncaught TypeError (salary is never
passed through `float()`), modelled as `none` — not the gray the claim
requires for any parse failure. -/
theorem get_marker_color_gray_claim_counterexample :
    get_marker_color (some 1) (some 1) none "4-Room" (some 1) = none ∧
    (none : Option String) ≠ some "gray" :=
  ⟨rfl, by decide⟩

/-- C2 (amended): gray is returned exactly when `preferredPrice`,
`listingPrice` or `cpfBalance` fails to parse; `salary` is never
parsed — with the other three valid, a non-numeric salary propagates an
uncaught TypeError (modelled `none`) instead of gray; and on fully
numeric inputs the result is green, yellow, or red, never gray. -/
theorem get_marker_color_gray_iff (p l s c : Option ℚ) (ft : String) :
    (get_marker_color p l s ft c = some "gray" ↔
      p = none ∨ l = none ∨ c = none) ∧
    (p ≠ none → l ≠ none → c ≠ none → s = none →
      get_marker_color p l s ft c = none) ∧
    (∀ vp vl vs vc : ℚ, p = some vp → l = some vl → s = some vs → c = some vc →
      get_marker_color p l s ft c = some "green" ∨
      get_marker_color p l s ft c = some "yellow" ∨
      get_marker_color p l s ft c = some "red") := by
  refine ⟨?_, ?_, ?_⟩
  · rcases p with _ | vp <;> rcases l with _ | vl <;> rcases c with _ | vc <;>
      rcases s with _ | vs <;> simp only [get_marker_color] <;> try simp
    split_ifs <;> simp
  · intro hp hl hc hs
    rcases p with _ | vp
    · exact absurd rfl hp
    rcases l with _ | vl
    · exact absurd rfl hl
    rcases c with _ | vc
    · exact absurd rfl hc
    subst hs
    rfl
  · intro vp vl vs vc hp hl hs hc
    subst hp; subst hl; subst hs; subst hc
    simp only [get_marker_color]
    split_ifs <;> simp

/-- Witness for the amended C2: with an unparsable preferred price the
classifier returns gray. -/
theorem get_marker_color_gray_iff_witness :
    get_marker_color none (some 1) (some 1) "4-Room" (some 1) = some "gray" :=
  (get_marker_color_gray_iff none (some 1) (some 1) (some 1) "4-Room").1.mpr
    (Or.inl rfl)

/-- C3 counterexample: at salary 8000 the `salary <= 7000` gate keeps
both grant locals at 0, so a "3-Room" flat yields a total of 0 — not
the 40000 singles grant the claim promises for every salary. -/
theorem calculate_grant_claim_counterexample :
    calculate_grant 8000 "3-Room" = 0 ∧ (0 : ℚ) < 40000 := by
  constructor
  · simp only [calculate_grant, singles_grant, enhanced_grant]
    rw [if_neg (by norm_num), if_neg (by norm_num)]
    norm_num
  · norm_num

/-- C3 (amended): for salary ≤ 7000 the singles-grant local is 40000
for 2/3/4-Room, 25000 for 5-Room, and 0 for every other flat-type
string including "1-Room" and "Executive", with no error for
unrecognized flat types; for salary > 7000 the singles-grant local and
the returned total are both 0. -/
theorem calculate_grant_singles (s : ℚ) (ft : String) :
    (s ≤ 7000 →
      ((ft = "2-Room" ∨ ft = "3-Room" ∨ ft = "4-Room") →
        singles_grant s ft = 40000) ∧
      (ft = "5-Room" → singles_grant s ft = 25000) ∧
      (ft ≠ "2-Room" → ft ≠ "3-Room" → ft ≠ "4-Room" → ft ≠ "5-Room" →
        singles_grant s ft = 0)) ∧
    (7000 < s → singles_grant s ft = 0 ∧ calculate_grant s ft = 0) ∧
    singles_grant s "1-Room" = 0 ∧ singles_grant s "Executive" = 0 := by
  refine ⟨fun h7 => ⟨?_, ?_, ?_⟩, fun h7 => ⟨?_, ?_⟩, ?_, ?_⟩
  · intro h
    rw [singles_grant, if_pos h7, if_pos h]
  · intro h
    subst h
    rw [singles_grant, if_pos h7, if_neg (by decide), if_pos rfl]
  · intro h2 h3 h4 h5
    rw [singles_grant, if_pos h7, if_neg (by simp [h2, h3, h4]), if_neg h5]
  · rw [singles_grant, if_neg (not_le.mpr h7)]
  · rw [calculate_grant, singles_grant, enhanced_grant,
      if_neg (not_le.mpr h7), if_neg (not_le.mpr h7)]
    norm_num
  · rw [singles_grant]
    split_ifs with h1 h2 h3
    · exact absurd h2 (by decide)
    · exact absurd h3 (by decide)
    · rfl
    · rfl
  · rw [singles_grant]
    split_ifs with h1 h2 h3
    · exact absurd h2 (by decide)
    · exact absurd h3 (by decide)
    · rfl
    · rfl

/-- Witness for the amended C3 at salary 3000 (≤ 7000): "3-Room" yields
a 40000 singles grant. -/
theorem calculate_grant_singles_witness :
    singles_grant 3000 "3-Room" = 40000 :=
  ((calculate_grant_singles 3000 "3-Room").1 (by norm_num)).1
    (Or.inr (Or.inl rfl))

/-- C4: the enhanced-grant component is 60000 exactly when salary ≤
4500 and 0 above, independent of flat type (it takes no flat-type
argument); the value `calculate_grant` returns is always the sum of the
two non-negative components; and at (4000, "5-Room") the components are
25000 and 60000 with total 85000.  (The code returns the scalar total;
the components are its locals `singles_grant` and `enhanced_grant`.) -/
theorem calculate_grant_enhanced_total (s : ℚ) (ft : String) :
    (s ≤ 4500 → enhanced_grant s = 60000) ∧
    (4500 < s → enhanced_grant s = 0) ∧
    calculate_grant s ft = singles_grant s ft + enhanced_grant s ∧
    0 ≤ singles_grant s ft ∧
    0 ≤ enhanced_grant s ∧
    (singles_grant 4000 "5-Room" = 25000 ∧ enhanced_grant 4000 = 60000 ∧
      calculate_grant 4000 "5-Room" = 85000) := by
  refine ⟨?_, ?_, rfl, ?_, ?_, ?_, ?_, ?_⟩
  · intro h
    rw [enhanced_grant, if_pos (by linarith), if_pos h]
  · intro h
    rw [enhanced_grant]
    split_ifs with h1 h2
    · linarith
    · rfl
    · rfl
  · rw [singles_grant]
    split_ifs <;> norm_num
  · rw [enhanced_grant]
    split_ifs <;> norm_num
  · rw [singles_grant, if_pos (by norm_num), if_neg (by decide), if_pos rfl]
  · rw [enhanced_grant, if_pos (by norm_num), if_pos (by norm_num)]
  · rw [calculate_grant, singles_grant, enhanced_grant,
      if_pos (by norm_num : (4000 : ℚ) ≤ 7000), if_neg (by decide), if_pos rfl,
      if_pos (by norm_num : (4000 : ℚ) ≤ 7000), if_pos (by norm_num)]
    norm_num

/-- Witness for C4 at salary 4000: the enhanced component is 60000. -/
theorem calculate_grant_enhanced_total_witness :
    enhanced_grant 4000 = 60000 :=
  (calculate_grant_enhanced_total 4000 "4-Room").1 (by norm_num)

/-- C5 counterexample: with grants plus CPF (60000 + 100000) far above
the preferred price 100, the positive listing 1 classifies green — the
recovered code's `adjusted_price = listing − grant − cpf` collapses, so
over-subsidy drives green, and the claimed all-red behavior does not
exist. -/
theorem get_marker_color_negative_ceiling_counterexample :
    get_marker_color (some 100) (some 1) (some 1000) "1-Room"
      (some 100000) = some "green" ∧
    (100 : ℚ) - calculate_grant 1000 "1-Room" - 100000 < 0 ∧
    (0 : ℚ) < 1 ∧ (some "green" : Option String) ≠ some "red" := by
  refine ⟨?_, ?_, by norm_num, by decide⟩
  · simp +decide only [get_marker_color, calculate_grant, singles_grant,
      enhanced_grant]
    norm_num
  · simp +decide only [calculate_grant, singles_grant, enhanced_grant]
    norm_num

/-- C5 (amended): the classifier applies no clamping, but because
`adjusted_price = listingPrice − totalGrant − cpfBalance` is compared
against the preferred price, grants plus CPF exceeding the listing's
excess over the preferred price drive the classification to green:
whenever `listingPrice − totalGrant − cpfBalance ≤ preferredPrice` the
result is green, never red. -/
theorem get_marker_color_oversubsidy (p l s c : ℚ) (ft : String)
    (h : l - calculate_grant s ft - c ≤ p) :
    get_marker_color (some p) (some l) (some s) ft (some c) = some "green" := by
  simp only [get_marker_color]
  rw [if_pos h]

/-- Witness for the amended C5: preferred 100, listing 1, salary 1000,
flat "1-Room", CPF 100000 yields green. -/
theorem get_marker_color_oversubsidy_witness :
    get_marker_color (some 100) (some 1) (some 1000) "1-Room"
      (some 100000) = some "green" :=
  get_marker_color_oversubsidy 100 1 1000 100000 "1-Room"
    (by simp +decide only [calculate_grant, singles_grant, enhanced_grant]
        norm_num)

/-- C6: the loan rate resolver is a total function matching the rate
table: "HDB Housing Loan" always yields "2.6% per annum"; "DBS 5 Year
Fixed Package" yields the first-5-years description for tenure ≤ 5 and
the two-segment description above 5; every other loan type yields
"Unknown Loan Type". -/
theorem getInterestRate_table (lt : String) (t : ℚ) :
    (lt = "HDB Housing Loan" → getInterestRate lt t = "2.6% per annum") ∧
    (lt = "DBS 5 Year Fixed Package" →
      (t ≤ 5 → getInterestRate lt t = "2.5% per annum for the first 5 years") ∧
      (5 < t → getInterestRate lt t =
        "2.5% per annum for the first 5 years, then 4.48% per annum")) ∧
    (lt ≠ "HDB Housing Loan" → lt ≠ "DBS 5 Year Fixed Package" →
      getInterestRate lt t = "Unknown Loan Type") := by
  refine ⟨?_, ?_, ?_⟩
  · intro h
    simp only [getInterestRate]
    rw [if_pos h]
  · intro h
    subst h
    constructor
    · intro ht
      simp only [getInterestRate]
      rw [if_pos trivial, if_pos ht]
      decide
    · intro ht
      simp only [getInterestRate]
      rw [if_pos trivial, if_neg (not_le.mpr ht)]
      decide
  · intro h1 h2
    simp only [getInterestRate]
    rw [if_neg h1, if_neg h2]

/-- Witness for C6: the DBS package at a 10-year tenure yields the
two-segment rate description. -/
theorem getInterestRate_table_witness :
    getInterestRate "DBS 5 Year Fixed Package" 10 =
      "2.5% per annum for the first 5 years, then 4.48% per annum" :=
  ((getInterestRate_table "DBS 5 Year Fixed Package" 10).2.1 rfl).2 (by norm_num)

/-- C7: the grant calculator, affordability classifier, and loan rate
resolver are deterministic functions of their arguments: two calls with
identical inputs produce identical outcomes.  The recovered bytecode
reads nothing but its arguments and constants (no globals beyond
`calculate_grant`, no randomness, no clock); the classifier's uncaught
TypeError on a non-numeric salary is itself deterministic and is part
of the modelled outcome. -/
theorem engine_deterministic :
    (∀ (s₁ s₂ : ℚ) (f₁ f₂ : String), s₁ = s₂ → f₁ = f₂ →
      calculate_grant s₁ f₁ = calculate_grant s₂ f₂) ∧
    (∀ (p₁ p₂ l₁ l₂ s₁ s₂ c₁ c₂ : Option ℚ) (f₁ f₂ : String),
      p₁ = p₂ → l₁ = l₂ → s₁ = s₂ → c₁ = c₂ → f₁ = f₂ →
      get_marker_color p₁ l₁ s₁ f₁ c₁ = get_marker_color p₂ l₂ s₂ f₂ c₂) ∧
    (∀ (lt₁ lt₂ : String) (t₁ t₂ : ℚ), lt₁ = lt₂ → t₁ = t₂ →
      getInterestRate lt₁ t₁ = getInterestRate lt₂ t₂) := by
  refine ⟨?_, ?_, ?_⟩ <;> intros <;> subst_vars <;> rfl

/-- Witness for C7: repeating the grant computation at salary 4000 and
flat "5-Room" reproduces the same result. -/
theorem engine_deterministic_witness :
    calculate_grant 4000 "5-Room" = calculate_grant 4000 "5-Room" :=
  engine_deterministic.1 4000 4000 "5-Room" "5-Room" rfl rfl

/-- Evaluation form of `checkGrantEligibility` once the salary's parse
value is known. -/
lemma checkGrantEligibility_eval (salary hdbType : String) (v : ℚ)
    (hp : parseFloat salary = some v) :
    checkGrantEligibility salary hdbType =
      if v ≤ 7000 then
        if v ≤ 4500 then
          "Eligible for: HDB Singles Grant and Enhanced CPF Housing Grant. \nTotal Amount: $" ++
            formatAmount
              ((if hdbType = "5-Room" ∨ hdbType = "Executive" then 25000 else 40000) + 60000)
        else
          "Eligible for: HDB Singles Grant. \nAmount: $" ++
            formatAmount
              (if hdbType = "5-Room" ∨ hdbType = "Executive" then 25000 else 40000)
      else "Not eligible for any grants." := by
  rw [checkGrantEligibility, hp]
  simp only [nanLe, decide_eq_true_eq]

/-- C8: in the preferences screen, for a salary parsing at or below
7000, `checkGrantEligibility` reports a 25000 singles grant exactly for
"5-Room" and "Executive" flats and a 40000 singles grant for every
other flat-type string (the reported totals add the 60000 enhanced
grant when the salary also parses at or below 4500). -/
theorem checkGrantEligibility_singles (salary hdbType : String) (v : ℚ)
    (hp : parseFloat salary = some v) (h7 : v ≤ 7000) :
    ((hdbType = "5-Room" ∨ hdbType = "Executive") →
      checkGrantEligibility salary hdbType =
        if v ≤ 4500 then
          "Eligible for: HDB Singles Grant and Enhanced CPF Housing Grant. \nTotal Amount: $85,000"
        else "Eligible for: HDB Singles Grant. \nAmount: $25,000") ∧
    (hdbType ≠ "5-Room" → hdbType ≠ "Executive" →
      checkGrantEligibility salary hdbType =
        if v ≤ 4500 then
          "Eligible for: HDB Singles Grant and Enhanced CPF Housing Grant. \nTotal Amount: $100,000"
        else "Eligible for: HDB Singles Grant. \nAmount: $40,000") := by
  constructor
  · intro hcase
    rw [checkGrantEligibility_eval salary hdbType v hp, if_pos h7]
    by_cases h45 : v ≤ 4500
    · rw [if_pos h45, if_pos hcase, if_pos h45]
      decide
    · rw [if_neg h45, if_pos hcase, if_neg h45]
      decide
  · intro hne1 hne2
    rw [checkGrantEligibility_eval salary hdbType v hp, if_pos h7]
    by_cases h45 : v ≤ 4500
    · rw [if_pos h45, if_neg (not_or.mpr ⟨hne1, hne2⟩), if_pos h45]
      decide
    · rw [if_neg h45, if_neg (not_or.mpr ⟨hne1, hne2⟩), if_neg h45]
      decide

/-- Witness for C8: salary "4000" with flat "Executive" reports the
25000 singles grant plus the 60000 enhanced grant. -/
theorem checkGrantEligibility_singles_witness :
    checkGrantEligibility "4000" "Executive" =
      if (4000 : ℚ) ≤ 4500 then
        "Eligible for: HDB Singles Grant and Enhanced CPF Housing Grant. \nTotal Amount: $85,000"
      else "Eligible for: HDB Singles Grant. \nAmount: $25,000" :=
  (checkGrantEligibility_singles "4000" "Executive" 4000 parseFloat_4000
    (by norm_num)).1 (Or.inr rfl)

/-- C9: in the preferences screen, any salary parsing above 7000 makes
`checkGrantEligibility` return "Not eligible for any grants." for every
flat type. -/
theorem checkGrantEligibility_above_7000 (salary hdbType : String) (v : ℚ)
    (hp : parseFloat salary = some v) (hv : 7000 < v) :
    checkGrantEligibility salary hdbType = "Not eligible for any grants." := by
  rw [checkGrantEligibility_eval salary hdbType v hp, if_neg (not_le.mpr hv)]

/-- Witness for C9: salary "8000" with flat "4-Room" is reported not
eligible. -/
theorem checkGrantEligibility_above_7000_witness :
    checkGrantEligibility "8000" "4-Room" = "Not eligible for any grants." :=
  checkGrantEligibility_above_7000 "8000" "4-Room" 8000 parseFloat_8000
    (by norm_num)

/-- C10 counterexample: with an empty CPF-balance field, salary "8000"
and loan "HDB Housing Loan", `handleSavePreferences` sets
"Please fill out all fields." — not the HDB-loan error the claim
requires — because the empty-field guard runs first. -/
theorem handleSavePreferences_claim_counterexample :
    handleSavePreferences "8000" "" "4-Room" "300000" "HDB Housing Loan" =
      SaveOutcome.error "Please fill out all fields." ∧
    parseFloat "8000" = some 8000 ∧ (7000 : ℚ) < 8000 ∧
    SaveOutcome.error "Please fill out all fields." ≠
      SaveOutcome.error
        "HDB Loan is only allowed if salary is less than or equal to 7000." :=
  ⟨by decide, parseFloat_8000, by norm_num, by decide⟩

/-- C10 (amended): when all five preference fields are non-empty, the
loan type is "HDB Housing Loan" and the salary parses above 7000,
`handleSavePreferences` sets the HDB-loan error message and returns
before any backend POST (the `post` outcome is never produced). -/
theorem handleSavePreferences_hdb_salary_guard
    (salary cpfBalance hdbType preferredPrice : String) (v : ℚ)
    (h1 : salary ≠ "") (h2 : cpfBalance ≠ "") (h3 : hdbType ≠ "")
    (h4 : preferredPrice ≠ "") (hp : parseFloat salary = some v)
    (hv : 7000 < v) :
    handleSavePreferences salary cpfBalance hdbType preferredPrice
        "HDB Housing Loan" =
      SaveOutcome.error
        "HDB Loan is only allowed if salary is less than or equal to 7000." := by
  rw [handleSavePreferences]
  rw [if_neg (by simp [h1, h2, h3, h4])]
  rw [if_pos ⟨rfl, by rw [hp]; simp [nanGt, hv]⟩]

/-- Witness for the amended C10: fields "8000", "1000", "4-Room",
"300000" with the HDB loan produce exactly the HDB-loan error. -/
theorem handleSavePreferences_hdb_salary_guard_witness :
    handleSavePreferences "8000" "1000" "4-Room" "300000" "HDB Housing Loan" =
      SaveOutcome.error
        "HDB Loan is only allowed if salary is less than or equal to 7000." :=
  handleSavePreferences_hdb_salary_guard "8000" "1000" "4-Room" "300000" 8000
    (by decide) (by decide) (by decide) (by decide) parseFloat_8000 (by norm_num)
